import Mathlib

/-!
Shallow embedding of `src/app/main.py`: a FastAPI service that filters an
input text against a fixed keyword list and, when accepted, runs a
named-entity-recognition (NER) pipeline and a question-answering (QA)
pipeline over it, combining both results into one response.

Python strings are embedded as Lean `String`; Python's substring test
`needle in haystack` is embedded as `strIn`, and `str.lower` as `pyLower`
(character-wise case folding, which agrees with Python on the ASCII
keywords used by this program).  The two external model pipelines are
parameters of the handler: fallible functions returning `Except`, matching
Python exceptions that the handler does not catch.  The handler also
returns the list of model invocations it performed, so that claims about
which models were or were not called can be stated.
-/

namespace App

/-- leadsWith n h : the character list n is an initial segment of h
(Python: h.startswith(n)). -/
def leadsWith : List Char → List Char → Bool
  | [], _ => true
  | _ :: _, [] => false
  | a :: as, b :: bs => a == b && leadsWith as bs

/-- occursIn n h : n occurs contiguously somewhere inside h
(Python: n in h, for strings). -/
def occursIn : List Char → List Char → Bool
  | n, [] => leadsWith n []
  | n, b :: bs => leadsWith n (b :: bs) || occursIn n bs

/-- Python `needle in haystack` for strings. -/
def strIn (needle haystack : String) : Bool :=
  occursIn needle.data haystack.data

/-- Python `text.lower()`, character-wise case folding. -/
def pyLower (s : String) : String :=
  ⟨s.data.map Char.toLower⟩

/-- The literal keyword list `allowed_domains` of `src/app/main.py`. -/
def allowed_domains : List String :=
  [ "clothing", "fashion", "shopping", "accessories", "sustainability",
    "shoes", "hats", "shirts", "dresses", "pants", "jeans", "skirts",
    "jackets", "coats", "t-shirts", "sweaters", "hoodies", "activewear",
    "formal wear", "casual wear", "sportswear", "outerwear", "swimwear",
    "underwear", "lingerie", "socks", "scarves", "gloves", "belts", "ties",
    "caps", "beanies", "boots", "sandals", "heels", "sneakers", "materials",
    "cotton", "polyester", "wool", "silk", "leather", "denim", "linen",
    "athleisure", "ethnic wear", "fashion trends", "custom clothing",
    "tailoring", "sustainable materials", "recycled clothing",
    "fashion brands", "streetwear" ]

/-- `is_text_in_allowed_domain` of `src/app/main.py`: iterate the keyword
list, returning `true` as soon as one keyword occurs in the lowercased
text, `false` when the list is exhausted. -/
def is_text_in_allowed_domain (text : String) (domains : List String) : Bool :=
  match domains with
  | [] => false
  | d :: ds =>
    if strIn d (pyLower text) then true
    else is_text_in_allowed_domain text ds

/-- Scores: numeric confidence values.  numpy float32 values and the
`float(...)` conversion applied by the handler are embedded over ℚ; the
conversion from float32 to Python float is exact on the represented
value, so `pyFloat` is the identity on the embedded number. -/
def pyFloat (x : ℚ) : ℚ := x

/-- One dictionary of the list returned by `ner_pipeline(text)`:
the keys read by the handler. -/
structure RawEntity where
  word : String
  entity_group : String
  score : ℚ
  deriving DecidableEq, Repr

/-- The dictionary returned by `qa_pipeline(question=..., context=...)`:
the keys read by the handler. -/
structure QAResult where
  answer : String
  score : ℚ
  deriving DecidableEq, Repr

/-- An exception raised inside an external model pipeline
(`InferenceFailure` in the spec's terms). -/
inductive PyError where
  | inferenceError (msg : String)
  deriving DecidableEq, Repr

/-- Pydantic model `Entity` of `src/app/main.py`. -/
structure Entity where
  word : String
  entity_group : String
  score : ℚ
  deriving DecidableEq, Repr

/-- Pydantic model `NERResponse` of `src/app/main.py`. -/
structure NERResponse where
  entities : List Entity
  deriving DecidableEq, Repr

/-- Pydantic model `QAResponse` of `src/app/main.py`. -/
structure QAResponse where
  question : String
  answer : String
  score : ℚ
  deriving DecidableEq, Repr

/-- Pydantic model `CombinedRequest` of `src/app/main.py`. -/
structure CombinedRequest where
  text : String
  deriving DecidableEq, Repr

/-- Pydantic model `CombinedResponse` of `src/app/main.py`. -/
structure CombinedResponse where
  ner : NERResponse
  qa : QAResponse
  deriving DecidableEq, Repr

/-- A raised `HTTPException(status_code, detail)`. -/
structure HTTPError where
  status_code : Nat
  detail : String
  deriving DecidableEq, Repr

/-- Result of one call to the request handler: a normal return, a raised
`HTTPException`, or an exception from a model pipeline that the handler
lets propagate to the HTTP layer. -/
inductive HandlerOutcome where
  | success (resp : CombinedResponse)
  | httpError (e : HTTPError)
  | uncaught (e : PyError)
  deriving DecidableEq, Repr

/-- One invocation of an external model pipeline, as recorded in the
handler's call trace. -/
inductive ModelCall where
  | nerCall (text : String)
  | qaCall (question context : String)
  deriving DecidableEq, Repr

/-- The detail string of the 400 `HTTPException` in `process_request`
(two adjacent Python string literals, concatenated). -/
def domain_rejected_detail : String :=
  "The input text does not match the allowed domains. " ++
  "Please provide a query related to clothing, fashion, or accessories."

/-- `process_request` of `src/app/main.py`, parameterised by the two model
pipelines (`ner_pipeline` and `qa_pipeline`, fallible).  Returns the
outcome together with the list of model invocations performed, in order. -/
def process_request
    (ner : String → Except PyError (List RawEntity))
    (qa : String → String → Except PyError QAResult)
    (request : CombinedRequest) : HandlerOutcome × List ModelCall :=
  let input_text := request.text
  if ¬ (is_text_in_allowed_domain input_text allowed_domains = true) then
    (.httpError ⟨400, domain_rejected_detail⟩, [])
  else
    match ner input_text with
    | .error e => (.uncaught e, [.nerCall input_text])
    | .ok ner_entities =>
      let formatted_entities := ner_entities.map fun entity =>
        Entity.mk entity.word entity.entity_group (pyFloat entity.score)
      let ner_response := NERResponse.mk formatted_entities
      match qa input_text input_text with
      | .error e => (.uncaught e, [.nerCall input_text, .qaCall input_text input_text])
      | .ok qa_result =>
        let qa_response :=
          QAResponse.mk input_text qa_result.answer (pyFloat qa_result.score)
        (.success ⟨ner_response, qa_response⟩,
          [.nerCall input_text, .qaCall input_text input_text])

/-- A stateful view of the server for idempotence claims: the only state
shared across requests is read-only (the loaded models and keyword list);
the accumulated call log is threaded through explicitly. -/
def handle
    (ner : String → Except PyError (List RawEntity))
    (qa : String → String → Except PyError QAResult)
    (log : List ModelCall) (request : CombinedRequest) :
    HandlerOutcome × List ModelCall :=
  let r := process_request ner qa request
  (r.1, log ++ r.2)

/-- Response body of the root endpoint. -/
structure RootResponse where
  message : String
  deriving DecidableEq, Repr

/-- `root` of `src/app/main.py`. -/
def root : RootResponse :=
  ⟨"Welcome to the filtered NER and QA API!"⟩

/-- The `GET /` route: FastAPI wraps a normal return of `root` in a 200
response; the handler has no failure path. -/
def get_root : Nat × RootResponse :=
  (200, root)

/-! ### Characterizations of the embedded string primitives -/

theorem leadsWith_iff (n h : List Char) :
    leadsWith n h = true ↔ ∃ s, h = n ++ s := by
  induction n generalizing h with
  | nil =>
    simp [leadsWith]
  | cons a as ih =>
    cases h with
    | nil =>
      simp [leadsWith]
    | cons b bs =>
      simp only [leadsWith, Bool.and_eq_true, beq_iff_eq, ih]
      constructor
      · rintro ⟨rfl, s, rfl⟩
        exact ⟨s, rfl⟩
      · rintro ⟨s, hs⟩
        cases hs
        exact ⟨rfl, s, rfl⟩

theorem occursIn_iff (n h : List Char) :
    occursIn n h = true ↔ ∃ p s, h = p ++ n ++ s := by
  induction h with
  | nil =>
    simp only [occursIn, leadsWith_iff]
    constructor
    · rintro ⟨s, hs⟩
      exact ⟨[], s, hs⟩
    · rintro ⟨p, s, hs⟩
      rw [eq_comm, List.append_assoc, List.append_eq_nil] at hs
      obtain ⟨hn, hs0⟩ := List.append_eq_nil.mp hs.2
      exact ⟨s, by simp [hn, hs0]⟩
  | cons b bs ih =>
    simp only [occursIn, Bool.or_eq_true, leadsWith_iff, ih]
    constructor
    · rintro (⟨s, hs⟩ | ⟨p, s, hs⟩)
      · exact ⟨[], s, by simp [hs]⟩
      · exact ⟨b :: p, s, by simp [hs]⟩
    · rintro ⟨p, s, hs⟩
      cases p with
      | nil => exact Or.inl ⟨s, by simpa using hs⟩
      | cons c p' =>
        rw [List.cons_append, List.cons_append, List.cons.injEq] at hs
        exact Or.inr ⟨p', s, hs.2⟩

theorem occursIn_append_of_occursIn (n t p s : List Char)
    (h : occursIn n t = true) : occursIn n (p ++ t ++ s) = true := by
  rw [occursIn_iff] at h ⊢
  obtain ⟨a, b, rfl⟩ := h
  exact ⟨p ++ a, b ++ s, by simp⟩

theorem occursIn_map (f : Char → Char) (n h : List Char)
    (ho : occursIn n h = true) : occursIn (n.map f) (h.map f) = true := by
  rw [occursIn_iff] at ho ⊢
  obtain ⟨p, s, rfl⟩ := ho
  exact ⟨p.map f, s.map f, by simp⟩

theorem occursIn_trans (a b c : List Char)
    (hab : occursIn a b = true) (hbc : occursIn b c = true) :
    occursIn a c = true := by
  rw [occursIn_iff] at hab hbc ⊢
  obtain ⟨p, s, rfl⟩ := hab
  obtain ⟨p', s', rfl⟩ := hbc
  exact ⟨p' ++ p, s ++ s', by simp⟩

theorem data_append (a b : String) : (a ++ b).data = a.data ++ b.data :=
  rfl

theorem pyLower_data (s : String) :
    (pyLower s).data = s.data.map Char.toLower :=
  rfl

theorem pyLower_append (a b : String) :
    pyLower (a ++ b) = pyLower a ++ pyLower b := by
  apply String.ext
  simp [pyLower_data, data_append]

theorem leadsWith_nil_iff (n : List Char) :
    leadsWith n [] = true ↔ n = [] := by
  cases n <;> simp [leadsWith]

theorem strIn_empty_iff (d : String) : strIn d "" = true ↔ d = "" := by
  constructor
  · intro h
    rw [strIn, show ("" : String).data = [] from rfl, occursIn,
      leadsWith_nil_iff] at h
    exact String.ext (h.trans rfl)
  · rintro rfl
    rfl

theorem is_text_in_allowed_domain_iff (text : String) (domains : List String) :
    is_text_in_allowed_domain text domains = true ↔
      ∃ d ∈ domains, strIn d (pyLower text) = true := by
  induction domains with
  | nil => simp [is_text_in_allowed_domain]
  | cons d ds ih =>
    simp only [is_text_in_allowed_domain]
    by_cases hd : strIn d (pyLower text) = true
    · simp [hd]
    · simp [hd, ih]

/-! ### Reduction lemmas for the request handler -/

theorem process_request_rejected
    (ner : String → Except PyError (List RawEntity))
    (qa : String → String → Except PyError QAResult)
    (request : CombinedRequest)
    (h : is_text_in_allowed_domain request.text allowed_domains = false) :
    process_request ner qa request =
      (.httpError ⟨400, domain_rejected_detail⟩, []) := by
  simp [process_request, h]

theorem process_request_ner_error
    (ner : String → Except PyError (List RawEntity))
    (qa : String → String → Except PyError QAResult)
    (request : CombinedRequest) (e : PyError)
    (h : is_text_in_allowed_domain request.text allowed_domains = true)
    (hner : ner request.text = .error e) :
    process_request ner qa request =
      (.uncaught e, [.nerCall request.text]) := by
  simp [process_request, h, hner]

theorem process_request_qa_error
    (ner : String → Except PyError (List RawEntity))
    (qa : String → String → Except PyError QAResult)
    (request : CombinedRequest) (ents : List RawEntity) (e : PyError)
    (h : is_text_in_allowed_domain request.text allowed_domains = true)
    (hner : ner request.text = .ok ents)
    (hqa : qa request.text request.text = .error e) :
    process_request ner qa request =
      (.uncaught e,
        [.nerCall request.text, .qaCall request.text request.text]) := by
  simp [process_request, h, hner, hqa]

theorem process_request_ok
    (ner : String → Except PyError (List RawEntity))
    (qa : String → String → Except PyError QAResult)
    (request : CombinedRequest) (ents : List RawEntity) (qar : QAResult)
    (h : is_text_in_allowed_domain request.text allowed_domains = true)
    (hner : ner request.text = .ok ents)
    (hqa : qa request.text request.text = .ok qar) :
    process_request ner qa request =
      (.success
          ⟨⟨ents.map fun e => Entity.mk e.word e.entity_group (pyFloat e.score)⟩,
            ⟨request.text, qar.answer, pyFloat qar.score⟩⟩,
        [.nerCall request.text, .qaCall request.text request.text]) := by
  simp [process_request, h, hner, hqa]

/-! ### Concrete model pipelines used to instantiate the handler -/

/-- A NER pipeline stub returning no entities. -/
def nerOkEmpty : String → Except PyError (List RawEntity) :=
  fun _ => .ok []

/-- A NER pipeline stub returning one entity with score 0.995. -/
def nerOkOne : String → Except PyError (List RawEntity) :=
  fun _ => .ok [⟨"Nike", "ORG", 995 / 1000⟩]

/-- A NER pipeline stub that always raises. -/
def nerFailing : String → Except PyError (List RawEntity) :=
  fun _ => .error (.inferenceError "model unavailable")

/-- A QA pipeline stub returning a fixed answer with score 0.5. -/
def qaOkConst : String → String → Except PyError QAResult :=
  fun _ _ => .ok ⟨"running shoes", 1 / 2⟩

/-- A QA pipeline stub that always raises. -/
def qaFailing : String → String → Except PyError QAResult :=
  fun _ _ => .error (.inferenceError "qa model unavailable")

/-! ### C1 -/

/-- C1, as stated, instantiated at text `""` and keyword list `[""]`, is
false: the list `[""]` is non-empty and every keyword (namely `""`) does
occur in the lowercased text, so the filter returns `true` on the empty
string, contradicting the claim's "in particular it returns false for the
empty string". -/
theorem C1_counterexample :
    ¬ ((([""] : List String) ≠ []) →
        ((is_text_in_allowed_domain "" [""] = true ↔
            ∃ d ∈ ([""] : List String), strIn d (pyLower "") = true) ∧
          is_text_in_allowed_domain "" [""] = false)) := by
  decide

/-- C1 (amended): for every text and every non-empty keyword list,
`is_text_in_allowed_domain` returns true iff some keyword occurs as a
substring of the lowercased text; and provided every keyword is non-empty
(as all configured keywords are), it returns false on the empty string. -/
theorem C1_filter_characterization (text : String) (domains : List String)
    (_hne : domains ≠ []) :
    (is_text_in_allowed_domain text domains = true ↔
      ∃ d ∈ domains, strIn d (pyLower text) = true) ∧
    ((∀ d ∈ domains, d ≠ "") →
      is_text_in_allowed_domain "" domains = false) := by
  refine ⟨is_text_in_allowed_domain_iff text domains, fun hall => ?_⟩
  by_contra hcon
  rw [Bool.not_eq_false, is_text_in_allowed_domain_iff] at hcon
  obtain ⟨d, hd, hIn⟩ := hcon
  have hlow : pyLower "" = "" := rfl
  rw [hlow, strIn_empty_iff] at hIn
  exact hall d hd hIn

/-- C1 witness at text `""` and keyword list `["shoes"]`. -/
theorem C1_filter_characterization_witness :
    (is_text_in_allowed_domain "" ["shoes"] = true ↔
      ∃ d ∈ (["shoes"] : List String), strIn d (pyLower "") = true) ∧
    ((∀ d ∈ (["shoes"] : List String), d ≠ "") →
      is_text_in_allowed_domain "" ["shoes"] = false) :=
  C1_filter_characterization "" ["shoes"] (by decide)

/-! ### C2 -/

/-- C2: when the input text fails the domain filter, `process_request`
raises the 400 `HTTPException` whose detail names clothing, fashion and
accessories, and invokes neither model (the call trace is empty). -/
theorem C2_domain_rejected
    (ner : String → Except PyError (List RawEntity))
    (qa : String → String → Except PyError QAResult)
    (request : CombinedRequest)
    (h : is_text_in_allowed_domain request.text allowed_domains = false) :
    process_request ner qa request =
      (.httpError ⟨400, domain_rejected_detail⟩, []) ∧
    strIn "clothing" domain_rejected_detail = true ∧
    strIn "fashion" domain_rejected_detail = true ∧
    strIn "accessories" domain_rejected_detail = true :=
  ⟨process_request_rejected ner qa request h, by decide, by decide, by decide⟩

/-- C2 witness at text `"hi"` (no keyword occurs in it). -/
theorem C2_domain_rejected_witness :
    process_request nerOkEmpty qaOkConst ⟨"hi"⟩ =
      (.httpError ⟨400, domain_rejected_detail⟩, []) ∧
    strIn "clothing" domain_rejected_detail = true ∧
    strIn "fashion" domain_rejected_detail = true ∧
    strIn "accessories" domain_rejected_detail = true :=
  C2_domain_rejected nerOkEmpty qaOkConst ⟨"hi"⟩ (by decide)

/-! ### C8 -/

/-- C8: `GET /` always succeeds (the handler is a total function with no
failure path) and returns status 200 with exactly the message
"Welcome to the filtered NER and QA API!". -/
theorem C8_root_message :
    get_root = (200, ⟨"Welcome to the filtered NER and QA API!"⟩) :=
  rfl

/-! ### C9 -/

/-- C9: the domain filter is monotone under extension: surrounding an
accepted text with arbitrary text keeps it accepted. -/
theorem C9_filter_monotone (t p s : String)
    (h : is_text_in_allowed_domain t allowed_domains = true) :
    is_text_in_allowed_domain (p ++ t ++ s) allowed_domains = true := by
  rw [is_text_in_allowed_domain_iff] at h ⊢
  obtain ⟨d, hd, hIn⟩ := h
  refine ⟨d, hd, ?_⟩
  rw [pyLower_append, pyLower_append]
  show occursIn d.data
    ((pyLower p).data ++ (pyLower t).data ++ (pyLower s).data) = true
  exact occursIn_append_of_occursIn _ _ _ _ hIn

/-- C9 witness: "fashion" is accepted, and so is "I love fashion!". -/
theorem C9_filter_monotone_witness :
    is_text_in_allowed_domain ("I love " ++ "fashion" ++ "!")
      allowed_domains = true :=
  C9_filter_monotone "fashion" "I love " "!" (by decide)

/-! ### C3 -/

/-- C3: for every accepted request, `process_request` either returns a
combined response built from a successful NER result and a successful QA
result, or stops at the first stage failure and surfaces that single
error uncaught; no partial result is ever returned. -/
theorem C3_all_or_nothing
    (ner : String → Except PyError (List RawEntity))
    (qa : String → String → Except PyError QAResult)
    (request : CombinedRequest)
    (h : is_text_in_allowed_domain request.text allowed_domains = true) :
    (∃ ents qar,
        ner request.text = .ok ents ∧
        qa request.text request.text = .ok qar ∧
        (process_request ner qa request).1 = .success
          ⟨⟨ents.map fun e => Entity.mk e.word e.entity_group (pyFloat e.score)⟩,
            ⟨request.text, qar.answer, pyFloat qar.score⟩⟩) ∨
    (∃ e, ner request.text = .error e ∧
        (process_request ner qa request).1 = .uncaught e) ∨
    (∃ ents e, ner request.text = .ok ents ∧
        qa request.text request.text = .error e ∧
        (process_request ner qa request).1 = .uncaught e) := by
  rcases hner : ner request.text with e | ents
  · exact Or.inr (Or.inl ⟨e, rfl,
      by rw [process_request_ner_error ner qa request e h hner]⟩)
  · rcases hqa : qa request.text request.text with e | qar
    · exact Or.inr (Or.inr ⟨ents, e, rfl, rfl,
        by rw [process_request_qa_error ner qa request ents e h hner hqa]⟩)
    · exact Or.inl ⟨ents, qar, rfl, rfl,
        by rw [process_request_ok ner qa request ents qar h hner hqa]⟩

/-- C3 witness at text `"fashion"` with a failing NER pipeline: the
request stops at the NER stage and surfaces that error. -/
theorem C3_all_or_nothing_witness :
    (∃ ents qar,
        nerFailing "fashion" = .ok ents ∧
        qaOkConst "fashion" "fashion" = .ok qar ∧
        (process_request nerFailing qaOkConst ⟨"fashion"⟩).1 = .success
          ⟨⟨ents.map fun e => Entity.mk e.word e.entity_group (pyFloat e.score)⟩,
            ⟨"fashion", qar.answer, pyFloat qar.score⟩⟩) ∨
    (∃ e, nerFailing "fashion" = .error e ∧
        (process_request nerFailing qaOkConst ⟨"fashion"⟩).1 = .uncaught e) ∨
    (∃ ents e, nerFailing "fashion" = .ok ents ∧
        qaOkConst "fashion" "fashion" = .error e ∧
        (process_request nerFailing qaOkConst ⟨"fashion"⟩).1 = .uncaught e) :=
  C3_all_or_nothing nerFailing qaOkConst ⟨"fashion"⟩ (by decide)

/-! ### C4 -/

/-- qaCallUses t call : if call is a QA invocation, both its question and
its context equal t. -/
def qaCallUses (t : String) : ModelCall → Bool
  | .qaCall q c => q == t && c == t
  | .nerCall _ => true

/-- Did the NER pipeline return normally? -/
def nerReturnsOk : Except PyError (List RawEntity) → Bool
  | .ok _ => true
  | .error _ => false

/-- The question field of a successful outcome, if any. -/
def questionOf : HandlerOutcome → Option String
  | .success resp => some resp.qa.question
  | .httpError _ => none
  | .uncaught _ => none

/-- C4: for every request passing the domain filter, every QA invocation
performed by the handler has question and context both equal to the input
text; the QA stage is invoked whenever the NER stage returns; and on
success the response's qa.question equals the input text exactly. -/
theorem C4_qa_self_referential
    (ner : String → Except PyError (List RawEntity))
    (qa : String → String → Except PyError QAResult)
    (request : CombinedRequest)
    (h : is_text_in_allowed_domain request.text allowed_domains = true) :
    ((process_request ner qa request).2.all (qaCallUses request.text) = true) ∧
    (nerReturnsOk (ner request.text) = true →
      ModelCall.qaCall request.text request.text ∈
        (process_request ner qa request).2) ∧
    (questionOf (process_request ner qa request).1 = none ∨
      questionOf (process_request ner qa request).1 = some request.text) := by
  rcases hner : ner request.text with e | ents
  · rw [process_request_ner_error ner qa request e h hner]
    exact ⟨by simp [qaCallUses], by simp [nerReturnsOk], Or.inl rfl⟩
  · rcases hqa : qa request.text request.text with e | qar
    · rw [process_request_qa_error ner qa request ents e h hner hqa]
      exact ⟨by simp [qaCallUses], by simp, Or.inl rfl⟩
    · rw [process_request_ok ner qa request ents qar h hner hqa]
      exact ⟨by simp [qaCallUses], by simp, Or.inr rfl⟩

/-- C4 witness at text `"shoes"` with both pipelines succeeding. -/
theorem C4_qa_self_referential_witness :
    ((process_request nerOkOne qaOkConst ⟨"shoes"⟩).2.all
        (qaCallUses "shoes") = true) ∧
    (nerReturnsOk (nerOkOne "shoes") = true →
      ModelCall.qaCall "shoes" "shoes" ∈
        (process_request nerOkOne qaOkConst ⟨"shoes"⟩).2) ∧
    (questionOf (process_request nerOkOne qaOkConst ⟨"shoes"⟩).1 = none ∨
      questionOf (process_request nerOkOne qaOkConst ⟨"shoes"⟩).1 =
        some "shoes") :=
  C4_qa_self_referential nerOkOne qaOkConst ⟨"shoes"⟩ (by decide)

/-! ### C5 -/

/-- A confidence score lies in the unit interval. -/
def scoreIn01 (x : ℚ) : Prop := 0 ≤ x ∧ x ≤ 1

/-- C5: assuming the external models' contract that every score they
report lies in [0,1], every Entity.score and the Answer.score of a
successful response lie in [0,1] (the handler copies scores through
`float(...)`, which preserves the value). -/
theorem C5_scores_in_unit_interval
    (ner : String → Except PyError (List RawEntity))
    (qa : String → String → Except PyError QAResult)
    (request : CombinedRequest) (resp : CombinedResponse)
    (hner : ∀ t ents, ner t = .ok ents → ∀ e ∈ ents, scoreIn01 e.score)
    (hqa : ∀ q c r, qa q c = .ok r → scoreIn01 r.score)
    (h : (process_request ner qa request).1 = .success resp) :
    (∀ e ∈ resp.ner.entities, scoreIn01 e.score) ∧ scoreIn01 resp.qa.score := by
  rcases hf : is_text_in_allowed_domain request.text allowed_domains with _ | _
  · rw [process_request_rejected ner qa request hf] at h
    cases h
  · rcases hnerE : ner request.text with e | ents
    · rw [process_request_ner_error ner qa request e hf hnerE] at h
      cases h
    · rcases hqaE : qa request.text request.text with e | qar
      · rw [process_request_qa_error ner qa request ents e hf hnerE hqaE] at h
        cases h
      · rw [process_request_ok ner qa request ents qar hf hnerE hqaE] at h
        cases h
        constructor
        · intro e he
          simp only [List.mem_map] at he
          obtain ⟨raw, hraw, rfl⟩ := he
          exact hner request.text ents hnerE raw hraw
        · exact hqa request.text request.text qar hqaE

/-- C5 witness: one entity with score 0.995 and an answer with score 0.5,
for text `"shoes"`. -/
theorem C5_scores_in_unit_interval_witness :
    (∀ e ∈ (CombinedResponse.mk
        ⟨[Entity.mk "Nike" "ORG" (995 / 1000)]⟩
        ⟨"shoes", "running shoes", 1 / 2⟩).ner.entities,
      scoreIn01 e.score) ∧
    scoreIn01 (CombinedResponse.mk
        ⟨[Entity.mk "Nike" "ORG" (995 / 1000)]⟩
        ⟨"shoes", "running shoes", 1 / 2⟩).qa.score :=
  C5_scores_in_unit_interval nerOkOne qaOkConst ⟨"shoes"⟩
    (CombinedResponse.mk ⟨[Entity.mk "Nike" "ORG" (995 / 1000)]⟩
      ⟨"shoes", "running shoes", 1 / 2⟩)
    (by
      intro t ents hE
      rw [show nerOkOne t = .ok [⟨"Nike", "ORG", 995 / 1000⟩] from rfl] at hE
      cases hE
      intro e he
      rw [List.mem_singleton] at he
      subst he
      norm_num [scoreIn01])
    (by
      intro q c r hE
      rw [show qaOkConst q c = .ok ⟨"running shoes", 1 / 2⟩ from rfl] at hE
      cases hE
      norm_num [scoreIn01])
    rfl

/-! ### C6 -/

/-- C6, as stated, is false: the text "capsize" is accepted by the filter,
but not as a match for keyword "cap" — "cap" is not in the configured
keyword list (the list contains "caps"). -/
theorem C6_counterexample :
    ¬ ("cap" ∈ allowed_domains ∧
        strIn "cap" (pyLower "capsize") = true ∧
        is_text_in_allowed_domain "capsize" allowed_domains = true) := by
  decide

/-- C6 (amended): for every text containing "capsize" as a substring, the
filter over the configured keyword list treats it as a match for keyword
"caps" (which is in the list and occurs in the lowercased text) and
returns true — the keyword-inside-a-longer-word imprecision is
preserved. -/
theorem C6_capsize_matches (text : String)
    (h : strIn "capsize" text = true) :
    "caps" ∈ allowed_domains ∧
    strIn "caps" (pyLower text) = true ∧
    is_text_in_allowed_domain text allowed_domains = true := by
  have hlowered : occursIn "capsize".data (pyLower text).data = true := by
    have hmap := occursIn_map Char.toLower "capsize".data text.data h
    rw [show ("capsize".data.map Char.toLower) = "capsize".data from rfl]
      at hmap
    exact hmap
  have hcaps : strIn "caps" (pyLower text) = true :=
    occursIn_trans "caps".data "capsize".data (pyLower text).data
      (by decide) hlowered
  refine ⟨by decide, hcaps, ?_⟩
  rw [is_text_in_allowed_domain_iff]
  exact ⟨"caps", by decide, hcaps⟩

/-- C6 witness at text `"the canoe may capsize"`. -/
theorem C6_capsize_matches_witness :
    "caps" ∈ allowed_domains ∧
    strIn "caps" (pyLower "the canoe may capsize") = true ∧
    is_text_in_allowed_domain "the canoe may capsize"
      allowed_domains = true :=
  C6_capsize_matches "the canoe may capsize" (by decide)

/-! ### C7 -/

/-- C7: the handler is deterministic and stateless across requests: a
second, identical request issued after a first one (the only threaded
state being the accumulated model-call log) yields the identical
outcome, entity scores and answer score included. -/
theorem C7_idempotent
    (ner : String → Except PyError (List RawEntity))
    (qa : String → String → Except PyError QAResult)
    (log : List ModelCall) (request : CombinedRequest) :
    (handle ner qa log request).1 =
      (handle ner qa (handle ner qa log request).2 request).1 :=
  rfl

/-! ### C10 -/

/-- C10: on success, the response's entities list is exactly the map of
the NER pipeline's output, in order: word and entity_group copied
unchanged and score passed through the float conversion; nothing is
filtered, reordered, renamed or added. -/
theorem C10_entities_copied
    (ner : String → Except PyError (List RawEntity))
    (qa : String → String → Except PyError QAResult)
    (request : CombinedRequest) (ents : List RawEntity)
    (resp : CombinedResponse)
    (hner : ner request.text = .ok ents)
    (h : (process_request ner qa request).1 = .success resp) :
    resp.ner.entities =
      ents.map fun e => Entity.mk e.word e.entity_group (pyFloat e.score) := by
  rcases hf : is_text_in_allowed_domain request.text allowed_domains with _ | _
  · rw [process_request_rejected ner qa request hf] at h
    cases h
  · rcases hqaE : qa request.text request.text with e | qar
    · rw [process_request_qa_error ner qa request ents e hf hner hqaE] at h
      cases h
    · rw [process_request_ok ner qa request ents qar hf hner hqaE] at h
      cases h
      rfl

/-- C10 witness: the single raw entity of `nerOkOne` appears as the single
formatted entity of the response, fields copied. -/
theorem C10_entities_copied_witness :
    (CombinedResponse.mk
        ⟨[Entity.mk "Nike" "ORG" (995 / 1000)]⟩
        ⟨"shoes", "running shoes", 1 / 2⟩).ner.entities =
      ([⟨"Nike", "ORG", 995 / 1000⟩] : List RawEntity).map
        fun e => Entity.mk e.word e.entity_group (pyFloat e.score) :=
  C10_entities_copied nerOkOne qaOkConst ⟨"shoes"⟩
    [⟨"Nike", "ORG", 995 / 1000⟩]
    (CombinedResponse.mk ⟨[Entity.mk "Nike" "ORG" (995 / 1000)]⟩
      ⟨"shoes", "running shoes", 1 / 2⟩)
    rfl rfl

end App
